import Mathlib

/-!
Verification of the QQ channel (src/nanobot/channels/qq.py): session
lifecycle, dedup ledger, command interpretation, media fetching and the
inbound normalization pipeline, shallowly embedded in Lean.

Python strings are modelled as Lean strings; the ASCII-relevant behaviour of
`str.strip`, `str.lower`, `str.isdigit` and `str.split(" ", 2)` is embedded
directly.  Fallible external calls (HTTP, bus publish) and exceptions the
runtime may raise between pipeline stages are modelled by an explicit
environment of oracles, so that the catch-all in `_on_message` can be stated.
-/

set_option autoImplicit false

namespace Nanobot

universe u

/-- Python `collections.deque(maxlen = n)`, oldest element first.
Mirrors `self._processed_ids: deque = deque(maxlen=1000)` (qq.py line 60). -/
structure Deque (α : Type u) where
  maxlen : Nat
  items : List α
deriving DecidableEq

/-- Python `x in deque` membership test (qq.py line 137). -/
def Deque.contains {α : Type u} [BEq α] (d : Deque α) (a : α) : Bool :=
  d.items.contains a

/-- Python `deque.append`: when the deque is full the leftmost (oldest)
element is evicted (qq.py line 139 together with `maxlen=1000`). -/
def Deque.append {α : Type u} (d : Deque α) (a : α) : Deque α :=
  if d.items.length < d.maxlen then ⟨d.maxlen, d.items ++ [a]⟩
  else ⟨d.maxlen, d.items.drop 1 ++ [a]⟩

/-- The channel's dedup ledger as created in `__init__` (qq.py line 60). -/
def initialLedger : Deque String := ⟨1000, []⟩

/-- ASCII fragment of Python `str.lower` on one character. -/
def lowerChar (c : Char) : Char :=
  if 65 ≤ c.toNat && c.toNat ≤ 90 then Char.ofNat (c.toNat + 32) else c

/-- ASCII fragment of Python `str.lower` (qq.py line 152). -/
def pyLower (s : String) : String :=
  String.mk (s.toList.map lowerChar)

/-- ASCII whitespace recognised by Python `str.strip`. -/
def isSpaceChar (c : Char) : Bool :=
  c = ' ' || c = '\t' || c = '\n' || c = '\r' || c = '\x0b' || c = '\x0c'

/-- ASCII fragment of Python `str.strip` (qq.py line 143). -/
def pyStrip (s : String) : String :=
  String.mk (((s.toList.dropWhile isSpaceChar).reverse.dropWhile isSpaceChar).reverse)

/-- ASCII fragment of Python `str.isdigit` (qq.py line 163): non-empty and
every character a decimal digit. -/
def pyIsDigit (s : String) : Bool :=
  !s.toList.isEmpty && s.toList.all (fun c => 48 ≤ c.toNat && c.toNat ≤ 57)

/-- Python `int` on a string of decimal digits (qq.py line 164). -/
def digitsToNat (s : String) : Nat :=
  s.toList.foldl (fun n c => 10 * n + (c.toNat - 48)) 0

/-- Split a character list at the first space, if any. -/
def splitFirst : List Char → Option (List Char × List Char)
  | [] => none
  | c :: cs =>
    if c = ' ' then some ([], cs)
    else
      match splitFirst cs with
      | none => none
      | some (a, b) => some (c :: a, b)

/-- Python `s.split(" ", 2)`: at most three parts, split on the first two
space characters, empty parts kept (qq.py line 151). -/
def pySplit2 (s : String) : List String :=
  match splitFirst s.toList with
  | none => [s]
  | some (p0, rest) =>
    match splitFirst rest with
    | none => [String.mk p0, String.mk rest]
    | some (p1, rest2) => [String.mk p0, String.mk p1, String.mk rest2]

/-- Python `str.startswith` (qq.py line 149), via the character lists. -/
def pyStartsWith (s p : String) : Bool :=
  p.toList.isPrefixOf s.toList

/-- Outcome of the inline command interpretation (qq.py lines 146-167):
the forwarded content together with the metadata keys the block may add
(`reset_session`, `memory_window`). -/
structure Interp where
  content : String
  resetSession : Bool
  memoryWindow : Option Nat
deriving DecidableEq

/-- The command-interpretation block of `_on_message` (qq.py lines 149-166),
applied to the stripped raw content. -/
def interpretCommand (raw : String) : Interp :=
  if pyStartsWith raw ("/") then
    let parts := pySplit2 raw
    let cmd := pyLower (parts.headD (""))
    if cmd = "/reset" then
      { content := "Reset conversation context.", resetSession := true, memoryWindow := none }
    else if cmd = "/context" then
      if 2 ≤ parts.length && pyIsDigit (parts.getD 1 ("")) then
        { content :=
            if 2 < parts.length then parts.getD 2 ("")
            else ("Set context window to ") ++ parts.getD 1 ("")
        , resetSession := false
        , memoryWindow := some (digitsToNat (parts.getD 1 (""))) }
      else { content := raw, resetSession := false, memoryWindow := none }
    else { content := raw, resetSession := false, memoryWindow := none }
  else { content := raw, resetSession := false, memoryWindow := none }

/-- Author record of a `C2CMessage`; `none` models an absent attribute, so
that `getattr(author, 'id', None)` and `getattr(author, 'user_openid',
'unknown')` (qq.py line 142) can be read off. -/
structure Author where
  id : Option String
  user_openid : Option String
deriving DecidableEq

/-- One attachment; `url` is `none` when the `url` attribute is absent
(qq.py line 173). -/
structure Attachment where
  url : Option String
deriving DecidableEq

/-- Inbound platform event as read by `_on_message` (qq.py lines 133-175):
`content` is `none` when `data.content` is `None`, `attachments` is `none`
when the attribute is absent. -/
structure QQMessage where
  id : String
  author : Author
  content : Option String
  attachments : Option (List Attachment)
deriving DecidableEq

/-- Python `str(getattr(author, 'id', None) or getattr(author, 'user_openid',
'unknown'))` (qq.py line 142), second disjunct: the open-id fallback. -/
def openidOrUnknown (a : Author) : String :=
  match a.user_openid with
  | some s => s
  | none => "unknown"

/-- Author identity resolution of `_on_message` (qq.py line 142): Python
`or` falls through on a falsy (absent or empty) primary id. -/
def resolveUserId (a : Author) : String :=
  match a.id with
  | some s => if s = "" then openidOrUnknown a else s
  | none => openidOrUnknown a

/-- Python `hasattr(att, "url") and att.url` (qq.py line 173): the url when present
and truthy. -/
def truthyUrl (att : Attachment) : Option String :=
  match att.url with
  | some u => if u = "" then none else some u
  | none => none

/-- Python `hasattr(data, "attachments") and data.attachments` (qq.py line 171):
the attachment list iterated by the media loop; absent or empty means the
loop body never runs. -/
def truthyAtts (o : Option (List Attachment)) : List Attachment :=
  match o with
  | some l => if l.isEmpty then [] else l
  | none => []

/-- Response of `session.get(url)` as far as `_download_media` reads it:
status code and the `Content-Type` header (`none` when absent). -/
structure HttpResponse where
  status : Nat
  contentType : Option String
deriving DecidableEq

/-- The points of `_on_message` between which the Python runtime may raise
an unexpected exception; used to state the catch-all (qq.py lines 135/187). -/
inductive Stage where
  | dedup
  | author
  | command
  | fetch
  | publish
deriving DecidableEq

/-- Environment of external collaborators of the channel: the HTTP client
(`aiohttp`, an `Except.error` models a raised transport error),
`mimetypes.guess_extension`, `tempfile.NamedTemporaryFile` naming, and an
oracle injecting an unexpected runtime exception at a given pipeline stage
(`none` everywhere models a run where nothing unexpected is raised). -/
structure Env where
  http : String → Except String HttpResponse
  guessExt : String → Option String
  tmpName : String → String
  raiseAt : Stage → Option String

/-- Function `_download_media` (qq.py lines 116-131): on a 200 response, pick an
extension from the Content-Type (defaulting to ".jpg") and return a fresh
temporary path; on any other status or a raised transport error, return
`none`. -/
def downloadMedia (env : Env) (url : String) : Option String :=
  match env.http url with
  | Except.error _ => none
  | Except.ok resp =>
    if resp.status = 200 then
      let ext := (env.guessExt (resp.contentType.getD (""))).getD (".jpg")
      some (env.tmpName ext)
    else none

/-- Canonical inbound message handed to `self._handle_message`
(qq.py lines 180-186); the metadata dict is flattened into its three
possible keys. -/
structure CanonicalMessage where
  senderId : String
  chatId : String
  content : String
  messageId : String
  resetSession : Bool
  memoryWindow : Option Nat
  media : List String
deriving DecidableEq

/-- Observable steps of one `_on_message` run, in execution order. -/
inductive Effect where
  | markSeen (id : String)
  | extractAuthor
  | interpret (raw : String)
  | fetch (url : String)
  | publish (m : CanonicalMessage)
deriving DecidableEq

/-- The attachment loop of `_on_message` (qq.py lines 170-175): fetch each
truthy url in order, collect the paths of the successful downloads, skip
failures. -/
def mediaLoop (env : Env) : List Attachment → List String × List Effect
  | [] => ([], [])
  | att :: rest =>
    match truthyUrl att with
    | none => mediaLoop env rest
    | some u =>
      let tail := mediaLoop env rest
      match downloadMedia env u with
      | some p => (p :: tail.1, Effect.fetch u :: tail.2)
      | none => (tail.1, Effect.fetch u :: tail.2)

/-- Result of the (unprotected) body of `_on_message`: the ledger after the
run, the effects performed, and the exception that escaped the body, if
any. -/
structure BodyResult where
  ledger : Deque String
  effects : List Effect
  error : Option String
deriving DecidableEq

/-- The body of the `try` block of `_on_message` (qq.py lines 136-186):
dedup check and mark, author resolution, command interpretation, media
fetching, empty-message suppression, publish.  State mutations performed
before an injected exception persist in the result. -/
def runBody (env : Env) (led : Deque String) (data : QQMessage) : BodyResult :=
  match env.raiseAt Stage.dedup with
  | some e => ⟨led, [], some e⟩
  | none =>
    if led.contains data.id then ⟨led, [], none⟩
    else
      let led1 := led.append data.id
      match env.raiseAt Stage.author with
      | some e => ⟨led1, [Effect.markSeen data.id], some e⟩
      | none =>
        let userId := resolveUserId data.author
        let rawContent := pyStrip (data.content.getD (""))
        match env.raiseAt Stage.command with
        | some e => ⟨led1, [Effect.markSeen data.id, Effect.extractAuthor], some e⟩
        | none =>
          let interp := interpretCommand rawContent
          match env.raiseAt Stage.fetch with
          | some e =>
            ⟨led1, [Effect.markSeen data.id, Effect.extractAuthor,
                    Effect.interpret rawContent], some e⟩
          | none =>
            let fetched := mediaLoop env (truthyAtts data.attachments)
            let effs := [Effect.markSeen data.id, Effect.extractAuthor,
                         Effect.interpret rawContent] ++ fetched.2
            if interp.content = "" && fetched.1.isEmpty then ⟨led1, effs, none⟩
            else
              match env.raiseAt Stage.publish with
              | some e => ⟨led1, effs, some e⟩
              | none =>
                let msg : CanonicalMessage :=
                  { senderId := userId
                  , chatId := userId
                  , content := if interp.content = "" then ("[Image Message]") else interp.content
                  , messageId := data.id
                  , resetSession := interp.resetSession
                  , memoryWindow := interp.memoryWindow
                  , media := fetched.1 }
                ⟨led1, effs ++ [Effect.publish msg], none⟩

/-- Handler `_on_message` as its caller sees it (qq.py lines 133-188): the `try`
wraps the whole body and the `except` clause only logs, so the handler
returns normally — with whatever ledger mutations and effects already
happened — whether or not the body raised. -/
def onMessage (env : Env) (led : Deque String) (data : QQMessage) :
    Except String (Deque String × List Effect) :=
  match runBody env led data with
  | ⟨led1, effs, _⟩ => Except.ok (led1, effs)

/-- The canonical messages published during a run, read off its effects. -/
def published (effs : List Effect) : List CanonicalMessage :=
  effs.filterMap (fun e =>
    match e with
    | Effect.publish m => some m
    | _ => none)

/-- The result of one attachment's handling (qq.py lines 173-175): `none`
when the url is absent, falsy, or the download fails. -/
def fetchResult (env : Env) (att : Attachment) : Option String :=
  match truthyUrl att with
  | some u => downloadMedia env u
  | none => none

/-- Content of the event after strip and command interpretation. -/
def contentOf (data : QQMessage) : String :=
  (interpretCommand (pyStrip (data.content.getD ("")))).content

/-- The media paths the event yields under a given environment. -/
def mediaOf (env : Env) (data : QQMessage) : List String :=
  (mediaLoop env (truthyAtts data.attachments)).1

/-- The QQ credential configuration as `start` reads it
(`self.config.app_id`, `self.config.secret`, qq.py line 69); `none` models
an unset field. -/
structure QQConfig where
  app_id : Option String
  secret : Option String
deriving DecidableEq

/-- Python truthiness of an optional string credential. -/
def pyTruthy (o : Option String) : Bool :=
  match o with
  | some s => !(s = "")
  | none => false

/-- Lifecycle state of the channel: running flag, the current botpy client
instance (identified by a creation counter, `none` before any is created),
the counter of client instances created so far, and whether the background
task was launched. -/
structure ChannelState where
  running : Bool
  client : Option Nat
  nextClientId : Nat
  botTask : Bool
deriving DecidableEq

/-- Modelled from the spec: a freshly constructed channel (`__init__`,
qq.py lines 56-61, together with the base-class running flag, which is not
under src/) is not running, has no client and no background task. -/
def initialChannelState : ChannelState :=
  ⟨false, none, 0, false⟩

/-- Method `start` (qq.py lines 63-78): bail out when the SDK is unavailable or a
credential is missing; otherwise set running, create the one client
instance and launch the background task. -/
def start (qqAvailable : Bool) (cfg : QQConfig) (st : ChannelState) : ChannelState :=
  if !qqAvailable then st
  else if !pyTruthy cfg.app_id || !pyTruthy cfg.secret then st
  else
    { running := true
    , client := some st.nextClientId
    , nextClientId := st.nextClientId + 1
    , botTask := true }

/-- The client instances used by the first `k` connection attempts of
`_run_bot` (qq.py lines 80-89): each iteration of the `while self._running`
loop awaits `self._client.start(...)`; nothing in the loop reassigns
`self._client` or `self._running`. -/
def runBotAttempts (st : ChannelState) : Nat → List (Option Nat)
  | 0 => []
  | Nat.succ k => if st.running then st.client :: runBotAttempts st k else []

/-- An environment in which nothing unexpected is raised, every download
succeeds as a png, and temporary names are suffix-determined. -/
def cleanEnv : Env :=
  { http := fun _ => Except.ok ⟨200, some ("image/png")⟩
  , guessExt := fun _ => some (".png")
  , tmpName := fun ext => "/tmp/media" ++ ext
  , raiseAt := fun _ => none }

/-- The canonical message a successful, non-suppressed run of `_on_message`
publishes for an event (qq.py lines 180-186), written with the derived
views `contentOf` and `mediaOf`. -/
def canonicalOf (env : Env) (data : QQMessage) : CanonicalMessage :=
  { senderId := resolveUserId data.author
  , chatId := resolveUserId data.author
  , content := if contentOf data = "" then ("[Image Message]") else contentOf data
  , messageId := data.id
  , resetSession := (interpretCommand (pyStrip (data.content.getD ("")))).resetSession
  , memoryWindow := (interpretCommand (pyStrip (data.content.getD ("")))).memoryWindow
  , media := mediaOf env data }

/-- An inbound event with empty content and no attachments. -/
def emptyEvent : QQMessage :=
  ⟨"m1", ⟨some ("u1"), none⟩, none, none⟩

/-- An ordinary text event. -/
def helloEvent : QQMessage :=
  ⟨"m2", ⟨some ("u1"), none⟩, some (" hello "), none⟩

/-- An environment that raises an unexpected exception at the publish step
and is otherwise clean. -/
def raisingEnv : Env :=
  { cleanEnv with
      raiseAt := fun s => if s = Stage.publish then some ("boom") else none }

/-- An environment in which fetching the url "bad" raises a transport error
and every other fetch succeeds. -/
def flakyEnv : Env :=
  { http := fun u =>
      if u = "bad" then Except.error ("network down")
      else Except.ok ⟨200, some ("image/png")⟩
  , guessExt := fun _ => some (".png")
  , tmpName := fun ext => "/tmp/media" ++ ext
  , raiseAt := fun _ => none }

/-- An event carrying no text and two attachments, the second of which has
the failing url. -/
def twoAttEvent : QQMessage :=
  ⟨"m3", ⟨none, some ("oid")⟩, some (""), some [⟨some ("good")⟩, ⟨some ("bad")⟩]⟩

/-- A configuration with both credentials present. -/
def validCfg : QQConfig :=
  ⟨some ("app"), some ("sec")⟩

/-- The effects every non-duplicate, non-aborted run performs before the
media loop: mark, author extraction, command interpretation. -/
def baseEffects (data : QQMessage) : List Effect :=
  [Effect.markSeen data.id, Effect.extractAuthor,
   Effect.interpret (pyStrip (data.content.getD ("")))]

/-- A configuration whose application id is unset. -/
def noAppIdCfg : QQConfig :=
  ⟨none, some ("sec")⟩

/-- An event with no text and one fetchable attachment. -/
def imageEvent : QQMessage :=
  ⟨"m4", ⟨some ("u2"), none⟩, none, some [⟨some ("good")⟩]⟩

end Nanobot

namespace Nanobot

/-- Published messages of a concatenation of effect lists. -/
theorem published_append (l1 l2 : List Effect) :
    published (l1 ++ l2) = published l1 ++ published l2 :=
  List.filterMap_append l1 l2 _

/-- Published messages of the empty effect list. -/
theorem published_nil : published [] = [] := rfl

/-- A mark effect publishes nothing. -/
theorem published_cons_markSeen (i : String) (t : List Effect) :
    published (Effect.markSeen i :: t) = published t := rfl

/-- An author-extraction effect publishes nothing. -/
theorem published_cons_extractAuthor (t : List Effect) :
    published (Effect.extractAuthor :: t) = published t := rfl

/-- An interpretation effect publishes nothing. -/
theorem published_cons_interpret (r : String) (t : List Effect) :
    published (Effect.interpret r :: t) = published t := rfl

/-- A fetch effect publishes nothing. -/
theorem published_cons_fetch (u : String) (t : List Effect) :
    published (Effect.fetch u :: t) = published t := rfl

/-- A publish effect contributes its message. -/
theorem published_cons_publish (m : CanonicalMessage) (t : List Effect) :
    published (Effect.publish m :: t) = m :: published t := rfl

/-- The media loop performs only fetch effects, never a publish. -/
theorem published_mediaLoop (env : Env) (atts : List Attachment) :
    published (mediaLoop env atts).2 = [] := by
  induction atts with
  | nil => rfl
  | cons att rest ih =>
    unfold mediaLoop
    split
    · exact ih
    · split
      · simpa [published] using ih
      · simpa [published] using ih

/-- An exception injected before the dedup check makes the body a no-op
that re-raises (qq.py line 137 context). -/
theorem runBody_raise_dedup (env : Env) (led : Deque String) (data : QQMessage) (e : String)
    (h : env.raiseAt Stage.dedup = some e) :
    runBody env led data = ⟨led, [], some e⟩ := by
  simp [runBody, h]

/-- Duplicate delivery: an id already in the ledger makes the body return
immediately with no effect (qq.py lines 137-138). -/
theorem runBody_seen (env : Env) (led : Deque String) (data : QQMessage)
    (h1 : env.raiseAt Stage.dedup = none) (h2 : led.contains data.id = true) :
    runBody env led data = ⟨led, [], none⟩ := by
  simp [runBody, h1, h2]

/-- First-seen delivery: the ledger after the run is always the old ledger
with the id appended, whatever happens later in the pipeline
(qq.py line 139). -/
theorem runBody_unseen_ledger (env : Env) (led : Deque String) (data : QQMessage)
    (h1 : env.raiseAt Stage.dedup = none) (h2 : led.contains data.id = false) :
    (runBody env led data).ledger = led.append data.id := by
  unfold runBody
  simp only [h1, h2]
  simp only [Bool.false_eq_true, if_false]
  repeat' split
  all_goals rfl

/-- First-seen delivery: the first effect is always the dedup mark
(qq.py line 139). -/
theorem runBody_unseen_marks_first (env : Env) (led : Deque String) (data : QQMessage)
    (h1 : env.raiseAt Stage.dedup = none) (h2 : led.contains data.id = false) :
    (runBody env led data).effects.head? = some (Effect.markSeen data.id) := by
  unfold runBody
  simp only [h1, h2]
  simp only [Bool.false_eq_true, if_false]
  repeat' split
  all_goals rfl

/-- A single run of the body publishes at most one canonical message. -/
theorem published_runBody_le_one (env : Env) (led : Deque String) (data : QQMessage) :
    (published (runBody env led data).effects).length ≤ 1 := by
  unfold runBody
  repeat' split
  all_goals try (rw [apply_ite BodyResult.effects]; rw [ite_self])
  all_goals simp [published_nil, published_cons_markSeen, published_cons_extractAuthor,
    published_cons_interpret, published_cons_fetch, published_cons_publish,
    published_append, published_mediaLoop]
  all_goals
    by_cases hg : (interpretCommand (pyStrip (data.content.getD ("")))).content = "" ∧
        (mediaLoop env (truthyAtts data.attachments)).1 = [] <;>
      simp [hg, published_nil, published_cons_markSeen, published_cons_extractAuthor,
        published_cons_interpret, published_cons_fetch, published_cons_publish,
        published_append, published_mediaLoop]

/-- When the body aborts with an exception, no canonical message was
published in that run: the publish call is the last step and an exception
raised at it precedes the publish itself. -/
theorem published_runBody_of_error (env : Env) (led : Deque String) (data : QQMessage) :
    (runBody env led data).error.isSome = true →
    published (runBody env led data).effects = [] := by
  unfold runBody
  repeat' split
  all_goals try (rw [apply_ite BodyResult.effects]; rw [ite_self])
  all_goals simp [published_nil, published_cons_markSeen, published_cons_extractAuthor,
    published_cons_interpret, published_cons_fetch, published_cons_publish,
    published_append, published_mediaLoop]
  all_goals
    by_cases hg : (interpretCommand (pyStrip (data.content.getD ("")))).content = "" ∧
        (mediaLoop env (truthyAtts data.attachments)).1 = [] <;>
      simp [hg, published_nil, published_cons_markSeen, published_cons_extractAuthor,
        published_cons_interpret, published_cons_fetch, published_cons_publish,
        published_append, published_mediaLoop]

/-- Characterization of a clean (exception-free) first-seen run: the id is
appended, the base effects and the fetch effects happen, and a publish of
the canonical message is appended exactly when the event is not suppressed
as empty (qq.py lines 136-186). -/
theorem runBody_clean (env : Env) (led : Deque String) (data : QQMessage)
    (hcl : ∀ st : Stage, env.raiseAt st = none) (h2 : led.contains data.id = false) :
    runBody env led data =
      if contentOf data = "" && (mediaOf env data).isEmpty then
        ⟨led.append data.id,
         baseEffects data ++ (mediaLoop env (truthyAtts data.attachments)).2, none⟩
      else
        ⟨led.append data.id,
         baseEffects data ++ (mediaLoop env (truthyAtts data.attachments)).2
           ++ [Effect.publish (canonicalOf env data)], none⟩ := by
  unfold runBody
  simp only [hcl Stage.dedup, hcl Stage.author, hcl Stage.command, hcl Stage.fetch,
    hcl Stage.publish, h2]
  simp only [Bool.false_eq_true, if_false]
  simp only [contentOf, mediaOf, canonicalOf, baseEffects]

/-- Appending to a bounded deque keeps the capacity field. -/
theorem Deque.append_maxlen {α : Type} (d : Deque α) (a : α) :
    (d.append a).maxlen = d.maxlen := by
  unfold Deque.append
  split <;> rfl

/-- The element just appended to a bounded deque is in the deque. -/
theorem Deque.contains_append_self {α : Type} [DecidableEq α] (d : Deque α) (a : α) :
    (d.append a).contains a = true := by
  unfold Deque.append Deque.contains
  split <;> simp [List.contains]

/-- Folding `Deque.append` over a list: with positive capacity `n` and a
start of at most `n` elements, the result keeps exactly the last `n`
insertions, oldest first. -/
theorem deque_foldl_items {α : Type} (L : List α) : ∀ (n : Nat) (ids : List α),
    1 ≤ n → ids.length ≤ n →
    List.foldl Deque.append (⟨n, ids⟩ : Deque α) L =
      ⟨n, (ids ++ L).drop (ids.length + L.length - n)⟩ := by
  induction L with
  | nil =>
    intro n ids h1 h2
    simp [Nat.sub_eq_zero_of_le h2]
  | cons a L ih =>
    intro n ids h1 h2
    rw [List.foldl_cons]
    by_cases hlt : ids.length < n
    · have happ : Deque.append (⟨n, ids⟩ : Deque α) a = ⟨n, ids ++ [a]⟩ := by
        simp [Deque.append, hlt]
      rw [happ, ih n (ids ++ [a]) h1 (by simp; omega)]
      have hidx : (ids ++ [a]).length + L.length - n = ids.length + (a :: L).length - n := by
        simp; omega
      rw [hidx, List.append_assoc]
      simp
    · have heq : ids.length = n := Nat.le_antisymm h2 (Nat.le_of_not_lt hlt)
      have happ : Deque.append (⟨n, ids⟩ : Deque α) a = ⟨n, ids.drop 1 ++ [a]⟩ := by
        simp [Deque.append, hlt]
      cases ids with
      | nil =>
        simp at heq
        omega
      | cons b tl =>
        have htl : tl.length + 1 = n := by simpa using heq
        rw [happ]
        have hlen : (List.drop 1 (b :: tl) ++ [a]).length ≤ n := by simp; omega
        rw [ih n (List.drop 1 (b :: tl) ++ [a]) h1 hlen]
        have h3 : (List.drop 1 (b :: tl) ++ [a]).length + L.length - n = L.length := by
          simp; omega
        have h5 : (b :: tl).length + (a :: L).length - n = L.length + 1 := by
          simp; omega
        rw [h3, h5]
        have hsplit : (b :: tl) ++ (a :: L) = b :: (tl ++ (a :: L)) := by simp
        rw [hsplit, List.drop_succ_cons, List.append_assoc]
        simp

/-- Claim C2: the dedup ledger (capacity 1000, created in `__init__`) holds
at most 1000 identifiers: the bound holds initially and is preserved by
insertion; insertion into a full ledger evicts exactly the least-recently
inserted (leftmost) id; after inserting 1001 distinct ids into a fresh
ledger the first one is no longer considered seen; and the handler treats
an id that is not in the ledger as new, processing it starting with the
mark step. -/
theorem qq_dedup_window_fifo :
    (initialLedger.maxlen = 1000 ∧ initialLedger.items.length ≤ 1000) ∧
    (∀ (d : Deque String) (x : String), d.maxlen = 1000 → d.items.length ≤ 1000 →
        (d.append x).maxlen = 1000 ∧ (d.append x).items.length ≤ 1000) ∧
    (∀ (d : Deque String) (x : String), d.maxlen = 1000 → d.items.length = 1000 →
        (d.append x).items = d.items.drop 1 ++ [x]) ∧
    (∀ (α : Type) [inst : DecidableEq α] (a : α) (L : List α),
        (a :: L).length = 1001 → (a :: L).Nodup →
        (List.foldl Deque.append (⟨1000, []⟩ : Deque α) (a :: L)).contains a = false) ∧
    (∀ (env : Env) (led : Deque String) (data : QQMessage),
        env.raiseAt Stage.dedup = none → led.contains data.id = false →
        (runBody env led data).effects.head? = some (Effect.markSeen data.id)) := by
  refine ⟨⟨rfl, by simp [initialLedger]⟩, ?_, ?_, ?_, ?_⟩
  · intro d x hm hl
    constructor
    · rw [Deque.append_maxlen, hm]
    · unfold Deque.append
      split <;> simp_all <;> omega
  · intro d x hm hl
    unfold Deque.append
    rw [hm, hl]
    simp
  · intro α inst a L hlen hnd
    have h1000 : (1 : Nat) ≤ 1000 := by omega
    have h0 : ([] : List α).length ≤ 1000 := by simp
    rw [deque_foldl_items (a :: L) 1000 [] h1000 h0]
    have hidx : ([] : List α).length + (a :: L).length - 1000 = 1 := by
      simp [hlen]
    rw [hidx]
    simp only [List.nil_append, List.drop_succ_cons, List.drop_zero]
    have hmem : a ∉ L := (List.nodup_cons.mp hnd).1
    simp [Deque.contains, List.contains]
    exact hmem
  · intro env led data h1 h2
    simp only [runBody, h1, h2]
    simp only [Bool.false_eq_true, if_false]
    cases env.raiseAt Stage.author with
    | some e => rfl
    | none =>
      cases env.raiseAt Stage.command with
      | some e => rfl
      | none =>
        cases env.raiseAt Stage.fetch with
        | some e => rfl
        | none =>
          simp only []
          split
          · rfl
          · cases env.raiseAt Stage.publish with
            | some e => rfl
            | none => rfl

/-- Witness for C2 at capacity 1000: appending to the full ledger
`⟨1000, ["a", ..]⟩` keeps the bound; a full concrete deque evicts its head;
inserting the 1001 distinct numbers 0..1000 into a fresh ledger makes 0
unseen again; and a fresh event id is processed starting with the mark. -/
theorem qq_dedup_window_fifo_witness :
    ((Deque.append (⟨1000, []⟩ : Deque String) ("a")).maxlen = 1000 ∧
      (Deque.append (⟨1000, []⟩ : Deque String) ("a")).items.length ≤ 1000) ∧
    (List.foldl Deque.append (⟨1000, []⟩ : Deque Nat)
        (0 :: List.map Nat.succ (List.range 1000))).contains 0 = false ∧
    (runBody cleanEnv initialLedger helloEvent).effects.head? =
      some (Effect.markSeen ("m2")) := by
  refine ⟨?_, ?_, ?_⟩
  · exact qq_dedup_window_fifo.2.1 ⟨1000, []⟩ ("a") rfl (by simp)
  · refine qq_dedup_window_fifo.2.2.2.1 Nat 0 (List.map Nat.succ (List.range 1000)) ?_ ?_
    · simp
    · rw [← List.range_succ_eq_map]
      exact List.nodup_range 1001
  · exact qq_dedup_window_fifo.2.2.2.2 cleanEnv initialLedger helloEvent rfl (by decide)

/-- Counterexample to claim C3 as stated.  First, "/context 0" yields the
set-context-window directive although "0" is not a positive integer
(`isdigit` accepts it).  Second, "/context 007" forwards the marker with
the argument as written ("Set context window to 007"), not with the parsed
integer 7. -/
theorem qq_command_interpreter_counterexample :
    (interpretCommand ("/context 0")).memoryWindow = some 0 ∧
    pyIsDigit ("0") = true ∧
    ¬ (0 < digitsToNat ("0")) ∧
    (interpretCommand ("/context 007")).memoryWindow = some 7 ∧
    (interpretCommand ("/context 007")).content = "Set context window to 007" ∧
    ¬ ((interpretCommand ("/context 007")).content = "Set context window to 7") := by
  refine ⟨by decide, by decide, by decide, by decide, by decide, by decide⟩

/-- Claim C3, amended: on trimmed text the interpreter splits a leading
slash command into at most three parts on the first two spaces; a first
token lowercasing to "/reset" always yields the reset directive with the
fixed marker; a "/context" whose second part is a non-empty string of
decimal digits (a non-negative integer, leading zeros allowed) yields
set-context-window(n) for the parsed value n, forwarding the trailing text
when present and otherwise the marker built from the argument as written;
any other slash command or malformed argument passes the original text
through with no directive, and non-slash text is untouched.  The spec's
five concrete parsing examples hold. -/
theorem qq_command_interpreter_amended :
    (∀ s : String, pyStartsWith s ("/") = false →
        interpretCommand s = ⟨s, false, none⟩) ∧
    (∀ s : String, pyStartsWith s ("/") = true →
        pyLower ((pySplit2 s).headD ("")) = "/reset" →
        interpretCommand s = ⟨"Reset conversation context.", true, none⟩) ∧
    (∀ s c a : String, pyStartsWith s ("/") = true →
        pySplit2 s = [c, a] → pyLower c = "/context" → pyIsDigit a = true →
        interpretCommand s =
          ⟨"Set context window to " ++ a, false, some (digitsToNat a)⟩) ∧
    (∀ s c a r : String, pyStartsWith s ("/") = true →
        pySplit2 s = [c, a, r] → pyLower c = "/context" → pyIsDigit a = true →
        interpretCommand s = ⟨r, false, some (digitsToNat a)⟩) ∧
    (∀ s : String, pyStartsWith s ("/") = true →
        pyLower ((pySplit2 s).headD ("")) ≠ "/reset" →
        pyLower ((pySplit2 s).headD ("")) ≠ "/context" →
        interpretCommand s = ⟨s, false, none⟩) ∧
    (∀ s : String, pyStartsWith s ("/") = true →
        pyLower ((pySplit2 s).headD ("")) = "/context" →
        (2 ≤ (pySplit2 s).length && pyIsDigit ((pySplit2 s).getD 1 (""))) = false →
        interpretCommand s = ⟨s, false, none⟩) ∧
    (interpretCommand ("/reset") = ⟨"Reset conversation context.", true, none⟩ ∧
      interpretCommand ("/context 5") = ⟨"Set context window to 5", false, some 5⟩ ∧
      interpretCommand ("/context 5 hello") = ⟨"hello", false, some 5⟩ ∧
      interpretCommand ("/context abc") = ⟨"/context abc", false, none⟩ ∧
      interpretCommand ("hello world") = ⟨"hello world", false, none⟩) := by
  refine ⟨?_, ?_, ?_, ?_, ?_, ?_, by decide, by decide, by decide, by decide, by decide⟩
  · intro s h
    simp [interpretCommand, h]
  · intro s h hr
    have hr2 : pyLower ((pySplit2 s).head?.getD ("")) = "/reset" := by simpa using hr
    simp [interpretCommand, h, hr2]
  · intro s c a h hsplit hcmd hdig
    simp [interpretCommand, h, hsplit, hcmd, hdig]
  · intro s c a r h hsplit hcmd hdig
    simp [interpretCommand, h, hsplit, hcmd, hdig]
  · intro s h hr hc
    have hr2 : ¬ pyLower ((pySplit2 s).head?.getD ("")) = "/reset" := by simpa using hr
    have hc2 : ¬ pyLower ((pySplit2 s).head?.getD ("")) = "/context" := by simpa using hc
    simp [interpretCommand, h, hr2, hc2]
  · intro s h hc hcond
    have hc2 : pyLower ((pySplit2 s).head?.getD ("")) = "/context" := by simpa using hc
    have hcond2 := hcond
    simp only [Bool.and_eq_false_iff] at hcond2
    simp [interpretCommand, h, hc2]
    intro hlen
    rcases hcond2 with hbad | hbad
    · simp [hlen] at hbad
    · simpa using hbad

/-- Witness for the amended C3 on fresh concrete inputs: a non-slash text,
a mixed-case reset, a two-part and a three-part context command, an unknown
command, and a context command with a non-numeric argument. -/
theorem qq_command_interpreter_amended_witness :
    interpretCommand ("plain text") = ⟨"plain text", false, none⟩ ∧
    interpretCommand ("/RESET now") = ⟨"Reset conversation context.", true, none⟩ ∧
    interpretCommand ("/context 12") =
      ⟨"Set context window to " ++ "12", false, some (digitsToNat ("12"))⟩ ∧
    interpretCommand ("/context 12 ok go") = ⟨"ok go", false, some (digitsToNat ("12"))⟩ ∧
    interpretCommand ("/help me") = ⟨"/help me", false, none⟩ ∧
    interpretCommand ("/context x1") = ⟨"/context x1", false, none⟩ := by
  refine ⟨?_, ?_, ?_, ?_, ?_, ?_⟩
  · exact qq_command_interpreter_amended.1 ("plain text") (by decide)
  · exact qq_command_interpreter_amended.2.1 ("/RESET now") (by decide) (by decide)
  · exact qq_command_interpreter_amended.2.2.1 ("/context 12") ("/context") ("12")
      (by decide) (by decide) (by decide) (by decide)
  · exact qq_command_interpreter_amended.2.2.2.1 ("/context 12 ok go") ("/context") ("12")
      ("ok go") (by decide) (by decide) (by decide) (by decide)
  · exact qq_command_interpreter_amended.2.2.2.2.1 ("/help me") (by decide) (by decide)
      (by decide)
  · exact qq_command_interpreter_amended.2.2.2.2.2.1 ("/context x1") (by decide) (by decide)
      (by decide)

/-- Counterexample to claim C1 as stated: an event with empty content and
no attachments, delivered twice, publishes zero canonical messages — not
exactly one. -/
theorem qq_idempotence_counterexample :
    (published ((runBody cleanEnv initialLedger emptyEvent).effects ++
        (runBody cleanEnv (runBody cleanEnv initialLedger emptyEvent).ledger
          emptyEvent).effects)).length = 0 ∧
    ¬ (published ((runBody cleanEnv initialLedger emptyEvent).effects ++
        (runBody cleanEnv (runBody cleanEnv initialLedger emptyEvent).ledger
          emptyEvent).effects)).length = 1 := by
  refine ⟨by decide, by decide⟩

/-- Claim C1, amended: delivering the same message id twice while it is in
the dedup window publishes AT MOST one canonical message — exactly one when
the first delivery publishes — and the second delivery is discarded at the
dedup check: it performs no effect at all (no author extraction, command
parsing, media fetching or publishing) and leaves the ledger unchanged. -/
theorem qq_idempotence_amended :
    ∀ (env : Env) (led : Deque String) (data : QQMessage),
      env.raiseAt Stage.dedup = none → led.contains data.id = false →
      (runBody env (runBody env led data).ledger data).effects = [] ∧
      (runBody env (runBody env led data).ledger data).ledger =
        (runBody env led data).ledger ∧
      published ((runBody env led data).effects ++
          (runBody env (runBody env led data).ledger data).effects) =
        published (runBody env led data).effects ∧
      (published (runBody env led data).effects).length ≤ 1 := by
  intro env led data h1 h2
  have hled : (runBody env led data).ledger = led.append data.id :=
    runBody_unseen_ledger env led data h1 h2
  have hcontains : (runBody env led data).ledger.contains data.id = true := by
    rw [hled]
    exact Deque.contains_append_self led data.id
  have hsecond : runBody env (runBody env led data).ledger data =
      ⟨(runBody env led data).ledger, [], none⟩ :=
    runBody_seen env (runBody env led data).ledger data h1 hcontains
  refine ⟨by rw [hsecond], by rw [hsecond], ?_, published_runBody_le_one env led data⟩
  rw [hsecond]
  simp [published_append, published_nil]

/-- Witness for the amended C1: the text event "m2"/" hello " delivered
twice on a fresh ledger. -/
theorem qq_idempotence_amended_witness :
    (runBody cleanEnv (runBody cleanEnv initialLedger helloEvent).ledger
        helloEvent).effects = [] ∧
    (runBody cleanEnv (runBody cleanEnv initialLedger helloEvent).ledger
        helloEvent).ledger = (runBody cleanEnv initialLedger helloEvent).ledger ∧
    published ((runBody cleanEnv initialLedger helloEvent).effects ++
        (runBody cleanEnv (runBody cleanEnv initialLedger helloEvent).ledger
          helloEvent).effects) =
      published (runBody cleanEnv initialLedger helloEvent).effects ∧
    (published (runBody cleanEnv initialLedger helloEvent).effects).length ≤ 1 :=
  qq_idempotence_amended cleanEnv initialLedger helloEvent rfl (by decide)

/-- Claim C10: on a first-seen event the very first effect is the dedup
mark — it precedes author extraction, command parsing, media fetching, the
empty-message check and publishing; after the run (even one that is
discarded as empty or aborts with an exception at any later stage) the id
occupies a ledger slot; and any redelivery of an id that is still in the
window is a silent no-op. -/
theorem qq_mark_before_processing :
    ∀ (env : Env) (led : Deque String) (data : QQMessage),
      env.raiseAt Stage.dedup = none → led.contains data.id = false →
      (runBody env led data).effects.head? = some (Effect.markSeen data.id) ∧
      (runBody env led data).ledger.contains data.id = true ∧
      (∀ led2 : Deque String, led2.contains data.id = true →
          runBody env led2 data = ⟨led2, [], none⟩) := by
  intro env led data h1 h2
  refine ⟨runBody_unseen_marks_first env led data h1 h2, ?_, ?_⟩
  · rw [runBody_unseen_ledger env led data h1 h2]
    exact Deque.contains_append_self led data.id
  · intro led2 hseen
    exact runBody_seen env led2 data h1 hseen

/-- Witness for C10: the empty (hence ultimately discarded) event "m1" is
marked first, occupies a slot, and its redelivery against a ledger holding
"m1" is a no-op. -/
theorem qq_mark_before_processing_witness :
    (runBody cleanEnv initialLedger emptyEvent).effects.head? =
      some (Effect.markSeen ("m1")) ∧
    (runBody cleanEnv initialLedger emptyEvent).ledger.contains ("m1") = true ∧
    runBody cleanEnv (⟨1000, ["m1"]⟩ : Deque String) emptyEvent =
      ⟨⟨1000, ["m1"]⟩, [], none⟩ := by
  have h := qq_mark_before_processing cleanEnv initialLedger emptyEvent rfl (by decide)
  exact ⟨h.1, h.2.1, h.2.2 ⟨1000, ["m1"]⟩ (by decide)⟩

/-- Claim C5: the handler never raises — for every environment (including
ones that inject an exception at any pipeline stage) `_on_message` returns
normally with the ledger and effects of the run, and an aborted run is a
silent drop: nothing was published in it. -/
theorem qq_handler_never_raises :
    ∀ (env : Env) (led : Deque String) (data : QQMessage),
      onMessage env led data =
        Except.ok ((runBody env led data).ledger, (runBody env led data).effects) ∧
      ((runBody env led data).error.isSome = true →
        published (runBody env led data).effects = []) := by
  intro env led data
  constructor
  · cases hr : runBody env led data with
    | mk l e err => simp [onMessage, hr]
  · exact published_runBody_of_error env led data

/-- Witness for C5: an environment that raises at the publish step still
yields a normal return and an empty publish list. -/
theorem qq_handler_never_raises_witness :
    published (runBody raisingEnv initialLedger helloEvent).effects = [] ∧
    onMessage raisingEnv initialLedger helloEvent =
      Except.ok ((runBody raisingEnv initialLedger helloEvent).ledger,
        (runBody raisingEnv initialLedger helloEvent).effects) :=
  ⟨(qq_handler_never_raises raisingEnv initialLedger helloEvent).2 (by decide),
   (qq_handler_never_raises raisingEnv initialLedger helloEvent).1⟩

/-- Counterexample to claim C4 as stated: after `start`, two successive
connection attempts of the session loop use the same client instance
(instance 0, the one created by `start`) — the loop never creates a fresh
client. -/
theorem qq_fresh_client_counterexample :
    runBotAttempts (start true validCfg initialChannelState) 2 = [some 0, some 0] ∧
    (runBotAttempts (start true validCfg initialChannelState) 2).getD 0 none =
      (runBotAttempts (start true validCfg initialChannelState) 2).getD 1 none := by
  refine ⟨by decide, by decide⟩

/-- Claim C4, amended: `start()` creates exactly one fresh client instance
(and bumps the creation counter), and every connection attempt of the
background session loop reuses that same instance; no reconnect creates a
new client. -/
theorem qq_client_reuse_amended :
    (∀ (st : ChannelState) (k : Nat), st.running = true →
        runBotAttempts st k = List.replicate k st.client) ∧
    (∀ (cfg : QQConfig) (st : ChannelState),
        pyTruthy cfg.app_id = true → pyTruthy cfg.secret = true →
        (start true cfg st).client = some st.nextClientId ∧
        (start true cfg st).nextClientId = st.nextClientId + 1 ∧
        (start true cfg st).running = true) := by
  constructor
  · intro st k h
    induction k with
    | zero => rfl
    | succ n ih => simp [runBotAttempts, h, ih, List.replicate_succ]
  · intro cfg st ha hs
    simp [start, ha, hs]

/-- Witness for the amended C4: a started channel with valid credentials
runs both of its first two attempts on the single client instance 0. -/
theorem qq_client_reuse_amended_witness :
    runBotAttempts (start true validCfg initialChannelState) 3 =
      List.replicate 3 (start true validCfg initialChannelState).client ∧
    (start true validCfg initialChannelState).client =
      some initialChannelState.nextClientId ∧
    (start true validCfg initialChannelState).nextClientId =
      initialChannelState.nextClientId + 1 ∧
    (start true validCfg initialChannelState).running = true :=
  ⟨qq_client_reuse_amended.1 (start true validCfg initialChannelState) 3 (by decide),
   qq_client_reuse_amended.2 validCfg initialChannelState (by decide) (by decide)⟩

/-- Claim C6: with a missing credential, `start` leaves the channel state
entirely unchanged — in particular, started from a fresh channel, the
running flag stays false, no client is created and no background task is
launched (and hence no connection is attempted). -/
theorem qq_start_missing_credentials :
    ∀ (cfg : QQConfig) (st : ChannelState),
      pyTruthy cfg.app_id = false ∨ pyTruthy cfg.secret = false →
      start true cfg st = st ∧
      (start true cfg initialChannelState).running = false ∧
      (start true cfg initialChannelState).client = none ∧
      (start true cfg initialChannelState).botTask = false := by
  intro cfg st h
  have hstart : ∀ st2 : ChannelState, start true cfg st2 = st2 := by
    intro st2
    rcases h with h | h <;> simp [start, h]
  refine ⟨hstart st, ?_, ?_, ?_⟩ <;> rw [hstart initialChannelState] <;> rfl

/-- Witness for C6: a configuration without an application id. -/
theorem qq_start_missing_credentials_witness :
    start true noAppIdCfg initialChannelState = initialChannelState ∧
    (start true noAppIdCfg initialChannelState).running = false ∧
    (start true noAppIdCfg initialChannelState).client = none ∧
    (start true noAppIdCfg initialChannelState).botTask = false :=
  qq_start_missing_credentials noAppIdCfg initialChannelState (Or.inl (by decide))

/-- Counterexample to claim C9 as stated: an author whose only populated
field is the open-id field with the (non-empty) literal value "unknown"
resolves to "unknown", contradicting the claim that the resolved sender id
of every such event differs from the "unknown" sentinel. -/
theorem qq_author_fallback_counterexample :
    resolveUserId ⟨none, some ("unknown")⟩ = "unknown" ∧
    ¬ ("unknown" : String) = "" := by
  refine ⟨rfl, by decide⟩

/-- Claim C9, amended: author identity falls back through the ordered chain
(truthy primary id, then present open-id, then the "unknown" sentinel); for
an event whose author has only a non-empty open-id field the resolved
sender id is that open-id value, hence non-empty, and it differs from
"unknown" whenever the field's value is not itself the literal
"unknown". -/
theorem qq_author_fallback_amended :
    (∀ (a : Author) (s : String), a.id = some s → ¬ s = "" → resolveUserId a = s) ∧
    (∀ (a : Author) (s : String), a.id = none ∨ a.id = some ("") →
        a.user_openid = some s → resolveUserId a = s) ∧
    (∀ a : Author, a.id = none ∨ a.id = some ("") → a.user_openid = none →
        resolveUserId a = "unknown") ∧
    (∀ (a : Author) (s : String), a.id = none → a.user_openid = some s → ¬ s = "" →
        resolveUserId a = s ∧ ¬ resolveUserId a = "" ∧
        (¬ s = "unknown" → ¬ resolveUserId a = "unknown")) := by
  refine ⟨?_, ?_, ?_, ?_⟩
  · intro a s h hne
    simp [resolveUserId, h, hne]
  · intro a s hid hopen
    rcases hid with h | h <;> simp [resolveUserId, openidOrUnknown, h, hopen]
  · intro a hid hopen
    rcases hid with h | h <;> simp [resolveUserId, openidOrUnknown, h, hopen]
  · intro a s hid hopen hne
    have h1 : resolveUserId a = s := by simp [resolveUserId, openidOrUnknown, hid, hopen]
    refine ⟨h1, ?_, ?_⟩
    · rw [h1]
      exact hne
    · intro hu
      rw [h1]
      exact hu

/-- Witness for the amended C9 on concrete authors: primary id wins; an
open-id-only author resolves to the open-id; an author with an empty
primary id falls back; an author with no fields resolves to the
sentinel. -/
theorem qq_author_fallback_amended_witness :
    resolveUserId ⟨some ("uid9"), some ("oid9")⟩ = "uid9" ∧
    resolveUserId ⟨some (""), some ("oid9")⟩ = "oid9" ∧
    resolveUserId ⟨none, none⟩ = "unknown" ∧
    resolveUserId ⟨none, some ("oid9")⟩ = "oid9" ∧
    ¬ resolveUserId (⟨none, some ("oid9")⟩ : Author) = "" ∧
    ¬ resolveUserId (⟨none, some ("oid9")⟩ : Author) = "unknown" := by
  have h4 := qq_author_fallback_amended.2.2.2 ⟨none, some ("oid9")⟩ ("oid9") rfl rfl
    (by decide)
  exact ⟨qq_author_fallback_amended.1 ⟨some ("uid9"), some ("oid9")⟩ ("uid9") rfl (by decide),
    qq_author_fallback_amended.2.1 ⟨some (""), some ("oid9")⟩ ("oid9") (Or.inr rfl) rfl,
    qq_author_fallback_amended.2.2.1 ⟨none, none⟩ (Or.inl rfl) rfl,
    h4.1, h4.2.1, h4.2.2 (by decide)⟩

/-- The media list collected by the attachment loop is exactly the
successful fetches of the truthy urls, in attachment order. -/
theorem mediaLoop_fst (env : Env) (atts : List Attachment) :
    (mediaLoop env atts).1 = atts.filterMap (fetchResult env) := by
  induction atts with
  | nil => rfl
  | cons att rest ih =>
    unfold mediaLoop
    cases htu : truthyUrl att with
    | none => simp [List.filterMap_cons, fetchResult, htu, ih]
    | some u =>
      cases hdl : downloadMedia env u with
      | none => simp [List.filterMap_cons, fetchResult, htu, hdl, ih]
      | some p => simp [List.filterMap_cons, fetchResult, htu, hdl, ih]

/-- Nonempty media makes the suppression guard false. -/
theorem guard_false_of_media (env : Env) (data : QQMessage)
    (hm : ¬ mediaOf env data = []) :
    (contentOf data = "" && (mediaOf env data).isEmpty) = false := by
  have hie : (mediaOf env data).isEmpty = false := by
    cases hml : mediaOf env data with
    | nil => exact absurd hml hm
    | cons a t => rfl
  simp [hie]

/-- Published messages of a clean, first-seen, non-suppressed run. -/
theorem published_runBody_clean_pub (env : Env) (led : Deque String) (data : QQMessage)
    (hcl : ∀ st : Stage, env.raiseAt st = none) (h2 : led.contains data.id = false)
    (hg : (contentOf data = "" && (mediaOf env data).isEmpty) = false) :
    published (runBody env led data).effects = [canonicalOf env data] := by
  rw [runBody_clean env led data hcl h2]
  rw [if_neg (by simp [hg])]
  simp [baseEffects, published_append, published_nil, published_cons_markSeen,
    published_cons_extractAuthor, published_cons_interpret, published_mediaLoop,
    published_cons_publish]

/-- Published messages of a clean, first-seen, suppressed (empty) run. -/
theorem published_runBody_clean_empty (env : Env) (led : Deque String) (data : QQMessage)
    (hcl : ∀ st : Stage, env.raiseAt st = none) (h2 : led.contains data.id = false)
    (hg : (contentOf data = "" && (mediaOf env data).isEmpty) = true) :
    published (runBody env led data).effects = [] := by
  rw [runBody_clean env led data hcl h2]
  rw [if_pos (by simp [hg])]
  simp [baseEffects, published_append, published_nil, published_cons_markSeen,
    published_cons_extractAuthor, published_cons_interpret, published_mediaLoop]

/-- Claim C7: the media fetcher returns no result — instead of raising —
when the HTTP call raises a transport error or returns a non-200 status;
and in a clean run the collected media are exactly the successful fetches
in attachment order (failed fetches skipped), so an event with partially
failing attachments still publishes with exactly the fetched paths. -/
theorem qq_media_fetch_degradation :
    (∀ (env : Env) (url e : String), env.http url = Except.error e →
        downloadMedia env url = none) ∧
    (∀ (env : Env) (url : String) (resp : HttpResponse),
        env.http url = Except.ok resp → ¬ resp.status = 200 →
        downloadMedia env url = none) ∧
    (∀ (env : Env) (data : QQMessage),
        mediaOf env data = (truthyAtts data.attachments).filterMap (fetchResult env)) ∧
    (∀ (env : Env) (led : Deque String) (data : QQMessage),
        (∀ st : Stage, env.raiseAt st = none) → led.contains data.id = false →
        ¬ mediaOf env data = [] →
        published (runBody env led data).effects = [canonicalOf env data] ∧
        (canonicalOf env data).media =
          (truthyAtts data.attachments).filterMap (fetchResult env)) := by
  refine ⟨?_, ?_, ?_, ?_⟩
  · intro env url e h
    simp [downloadMedia, h]
  · intro env url resp h hs
    simp [downloadMedia, h, hs]
  · intro env data
    exact mediaLoop_fst env (truthyAtts data.attachments)
  · intro env led data hcl h2 hm
    refine ⟨published_runBody_clean_pub env led data hcl h2
      (guard_false_of_media env data hm), ?_⟩
    exact mediaLoop_fst env (truthyAtts data.attachments)

/-- Witness for C7: under `flakyEnv` the url "bad" errors and a 404 yields
no result; `twoAttEvent` (urls "good" and "bad") publishes exactly one
message whose media list is exactly the one successful path. -/
theorem qq_media_fetch_degradation_witness :
    downloadMedia flakyEnv ("bad") = none ∧
    downloadMedia { flakyEnv with http := fun _ => Except.ok ⟨404, none⟩ } ("good") = none ∧
    published (runBody flakyEnv initialLedger twoAttEvent).effects =
      [canonicalOf flakyEnv twoAttEvent] ∧
    (canonicalOf flakyEnv twoAttEvent).media = ["/tmp/media.png"] ∧
    mediaOf flakyEnv twoAttEvent =
      (truthyAtts twoAttEvent.attachments).filterMap (fetchResult flakyEnv) := by
  have h4 := qq_media_fetch_degradation.2.2.2 flakyEnv initialLedger twoAttEvent
    (fun _ => rfl) (by decide) (by decide)
  exact ⟨qq_media_fetch_degradation.1 flakyEnv ("bad") ("network down") rfl,
    qq_media_fetch_degradation.2.1
      { flakyEnv with http := fun _ => Except.ok ⟨404, none⟩ } ("good") ⟨404, none⟩ rfl
      (by decide),
    h4.1, by decide,
    qq_media_fetch_degradation.2.2.1 flakyEnv twoAttEvent⟩

/-- Claim C8: a clean first-seen event whose post-interpretation content is
empty and whose attachments yield no media publishes nothing; otherwise
exactly the canonical message is published, and when the text is empty but
media is present its content is the "[Image Message]" placeholder. -/
theorem qq_empty_message_suppression :
    ∀ (env : Env) (led : Deque String) (data : QQMessage),
      (∀ st : Stage, env.raiseAt st = none) → led.contains data.id = false →
      ((contentOf data = "" ∧ mediaOf env data = []) →
        published (runBody env led data).effects = []) ∧
      (¬ (contentOf data = "" ∧ mediaOf env data = []) →
        published (runBody env led data).effects = [canonicalOf env data]) ∧
      (contentOf data = "" → ¬ mediaOf env data = [] →
        (canonicalOf env data).content = "[Image Message]") := by
  intro env led data hcl h2
  refine ⟨?_, ?_, ?_⟩
  · intro hboth
    exact published_runBody_clean_empty env led data hcl h2
      (by simp [hboth.1, hboth.2])
  · intro hnot
    refine published_runBody_clean_pub env led data hcl h2 ?_
    by_cases hc : contentOf data = ""
    · have hm : ¬ mediaOf env data = [] := fun hm => hnot ⟨hc, hm⟩
      exact guard_false_of_media env data hm
    · simp [hc]
  · intro hc hm
    simp [canonicalOf, hc]

/-- Witness for C8: the empty event "m1" publishes nothing; the image-only
event "m4" publishes one message with the placeholder content. -/
theorem qq_empty_message_suppression_witness :
    published (runBody cleanEnv initialLedger emptyEvent).effects = [] ∧
    published (runBody cleanEnv initialLedger imageEvent).effects =
      [canonicalOf cleanEnv imageEvent] ∧
    (canonicalOf cleanEnv imageEvent).content = "[Image Message]" := by
  have h1 := qq_empty_message_suppression cleanEnv initialLedger emptyEvent
    (fun _ => rfl) (by decide)
  have h2 := qq_empty_message_suppression cleanEnv initialLedger imageEvent
    (fun _ => rfl) (by decide)
  exact ⟨h1.1 (by exact ⟨by decide, by decide⟩),
    h2.2.1 (by intro hb; exact absurd hb.2 (by decide)),
    h2.2.2 (by decide) (by decide)⟩

end Nanobot
